import Mathlib

/-!
# Panel driver for the PNC357DB1-4 DSI panel

A shallow embedding of `drivers/gpu/drm/panel/panel-pnc357db1.c`.

The driver talks to three collaborators that live outside the file: the
regulator (`vcc_avee`), the reset GPIO and the DSI transport.  Every request to
one of them is recorded, in program order, in `World.trace`; what the
collaborator answers is supplied by `Hw`, whose answers may depend on everything
that was requested before.  `DRM_DEV_ERROR` lines go to `World.log`.
-/

namespace Pnc357db1

/-! ## Collaborators -/

/-- A request made to the regulator, the reset GPIO, the timer or the DSI host. -/
inductive HwOp where
  | regulator_enable
  | regulator_disable
  | gpiod_set_value (value : Int)
  | msleep (msecs : Nat)
  | mipi_dsi_dcs_write_buffer (data : List Nat)
  | mipi_dsi_dcs_exit_sleep_mode
  | mipi_dsi_dcs_set_display_on
  | mipi_dsi_dcs_set_display_off
  | mipi_dsi_dcs_enter_sleep_mode
  deriving DecidableEq, Repr

/-- A line written with `DRM_DEV_ERROR`: the format string and its arguments. -/
structure LogLine where
  fmt : String
  args : List Int
  deriving DecidableEq, Repr

/-- What the driver has done so far: hardware requests and log lines, oldest first. -/
structure World where
  trace : List HwOp
  log : List LogLine
  deriving DecidableEq, Repr

/-- Answers of the collaborators.  Each answer is the value the driver stores in
its `int` variable; it may depend on the requests made before (and, for a raw
write, on the bytes written). -/
structure Hw where
  regulator_enable : List HwOp → Int
  regulator_disable : List HwOp → Int
  mipi_dsi_dcs_write_buffer : List HwOp → List Nat → Int
  mipi_dsi_dcs_exit_sleep_mode : List HwOp → Int
  mipi_dsi_dcs_set_display_on : List HwOp → Int
  mipi_dsi_dcs_set_display_off : List HwOp → Int
  mipi_dsi_dcs_enter_sleep_mode : List HwOp → Int

/-- Records a request in the trace. -/
def World.emit (w : World) (op : HwOp) : World :=
  { w with trace := w.trace ++ [op] }

/-- Call of `regulator_enable(vcc_avee)`. -/
def regulator_enable (hw : Hw) (w : World) : Int × World :=
  (hw.regulator_enable w.trace, w.emit .regulator_enable)

/-- Call of `regulator_disable(vcc_avee)`. -/
def regulator_disable (hw : Hw) (w : World) : Int × World :=
  (hw.regulator_disable w.trace, w.emit .regulator_disable)

/-- Call of `gpiod_set_value(reset, value)`. -/
def gpiod_set_value (w : World) (value : Int) : World :=
  w.emit (.gpiod_set_value value)

/-- Call of `msleep(msecs)`. -/
def msleep (w : World) (msecs : Nat) : World :=
  w.emit (.msleep msecs)

/-- Call of `mipi_dsi_dcs_write_buffer(dsi, data, len)`: the transport is handed
the first `len` bytes at `data`. -/
def mipi_dsi_dcs_write_buffer (hw : Hw) (w : World) (data : List Nat) (len : Nat) :
    Int × World :=
  (hw.mipi_dsi_dcs_write_buffer w.trace (data.take len),
    w.emit (.mipi_dsi_dcs_write_buffer (data.take len)))

/-- Call of `mipi_dsi_dcs_exit_sleep_mode(dsi)`. -/
def mipi_dsi_dcs_exit_sleep_mode (hw : Hw) (w : World) : Int × World :=
  (hw.mipi_dsi_dcs_exit_sleep_mode w.trace, w.emit .mipi_dsi_dcs_exit_sleep_mode)

/-- Call of `mipi_dsi_dcs_set_display_on(dsi)`. -/
def mipi_dsi_dcs_set_display_on (hw : Hw) (w : World) : Int × World :=
  (hw.mipi_dsi_dcs_set_display_on w.trace, w.emit .mipi_dsi_dcs_set_display_on)

/-- Call of `mipi_dsi_dcs_set_display_off(dsi)`. -/
def mipi_dsi_dcs_set_display_off (hw : Hw) (w : World) : Int × World :=
  (hw.mipi_dsi_dcs_set_display_off w.trace, w.emit .mipi_dsi_dcs_set_display_off)

/-- Call of `mipi_dsi_dcs_enter_sleep_mode(dsi)`. -/
def mipi_dsi_dcs_enter_sleep_mode (hw : Hw) (w : World) : Int × World :=
  (hw.mipi_dsi_dcs_enter_sleep_mode w.trace, w.emit .mipi_dsi_dcs_enter_sleep_mode)

/-- Call of `DRM_DEV_ERROR(dev, fmt, args...)`. -/
def DRM_DEV_ERROR (w : World) (fmt : String) (args : List Int) : World :=
  { w with log := w.log ++ [⟨fmt, args⟩] }

/-! ## Data types of the driver -/

/-- Length of one record of the init table, `pnc357db1_INIT_CMD_LEN`. -/
def pnc357db1_INIT_CMD_LEN : Nat := 2

/-- One record, `struct pnc357db1_init_cmd`: the two bytes of
`u8 data[pnc357db1_INIT_CMD_LEN]`. -/
structure pnc357db1_init_cmd where
  data0 : Nat
  data1 : Nat
  deriving DecidableEq, Repr

/-- The byte array `cmd->data`. -/
def pnc357db1_init_cmd.data (cmd : pnc357db1_init_cmd) : List Nat :=
  [cmd.data0, cmd.data1]

/-- Modelled from the spec: `struct drm_display_mode` is declared in
`drm/drm_modes.h`, which is not among the source files.  It carries the fields
the driver initialises (the timing and geometry of the ModeDescriptor and its
type flags) together with `flags` and `name`, which the driver leaves zeroed
and which `drm_mode_set_name` reads and writes. -/
structure drm_display_mode where
  clock : Int
  hdisplay : Nat
  hsync_start : Nat
  hsync_end : Nat
  htotal : Nat
  vdisplay : Nat
  vsync_start : Nat
  vsync_end : Nat
  vtotal : Nat
  flags : Nat := 0
  width_mm : Nat
  height_mm : Nat
  type : Nat
  name : String := ""
  deriving DecidableEq, Repr

/-- Modelled from the spec: `enum mipi_dsi_pixel_format` of `drm/drm_mipi_dsi.h`
(the PanelConfig's "pixel format (fixed enum, e.g. RGB888)"). -/
inductive mipi_dsi_pixel_format where
  | MIPI_DSI_FMT_RGB888
  | MIPI_DSI_FMT_RGB666
  | MIPI_DSI_FMT_RGB666_PACKED
  | MIPI_DSI_FMT_RGB565
  deriving DecidableEq, Repr

/-- The per-variant configuration, `struct pnc357db1_panel_desc`. -/
structure pnc357db1_panel_desc where
  mode : drm_display_mode
  lanes : Nat
  format : mipi_dsi_pixel_format
  init_cmds : List pnc357db1_init_cmd
  num_init_cmds : Nat
  deriving DecidableEq, Repr

/-- The driver instance, `struct pnc357db1`.  Its handles `dsi`, `vcc_avee` and
`reset` are the collaborators answered by `Hw`; what remains is the pointer to
the configuration.  The structure has no lifecycle-state member. -/
structure pnc357db1 where
  desc : pnc357db1_panel_desc
  deriving DecidableEq, Repr

/-! ## Lifecycle operations -/

/-- Embedding of `pnc357db1_prepare`. -/
def pnc357db1_prepare (hw : Hw) (w : World) : Int × World :=
  let (ret, w) := regulator_enable hw w
  if ret ≠ 0 then
    (ret, w)
  else
    let w := gpiod_set_value w 0
    let w := msleep w 120
    let w := gpiod_set_value w 1
    let w := msleep w 120
    (0, w)

/-- How the replay loop of `pnc357db1_enable` is left. -/
inductive ReplayExit where
  | completed (w : World)
  | returned (err : Int) (w : World)
  | out_of_table
  deriving DecidableEq, Repr

/-- The `for (i = 0; i < desc->num_init_cmds; i++)` loop of `pnc357db1_enable`,
entered at index `i` with `n = num_init_cmds - i` iterations left.  Reading
`desc->init_cmds[i]` past the end of the table is undefined in C and is reported
as `out_of_table`. -/
def pnc357db1_enable_loop (hw : Hw) (desc : pnc357db1_panel_desc) :
    Nat → Nat → World → ReplayExit
  | 0, _, w => .completed w
  | n + 1, i, w =>
    match desc.init_cmds[i]? with
    | none => .out_of_table
    | some cmd =>
      let (err, w) := mipi_dsi_dcs_write_buffer hw w cmd.data pnc357db1_INIT_CMD_LEN
      if err < 0 then
        .returned err w
      else
        pnc357db1_enable_loop hw desc n (i + 1) w

/-- Embedding of `pnc357db1_enable`; `none` stands for the undefined read past
the end of the table. -/
def pnc357db1_enable (hw : Hw) (ctx : pnc357db1) (w : World) : Option (Int × World) :=
  let desc := ctx.desc
  let w := msleep w 10
  match pnc357db1_enable_loop hw desc desc.num_init_cmds 0 w with
  | .out_of_table => none
  | .returned err w => some (err, w)
  | .completed w =>
    let w := msleep w 120
    let (err, w) := mipi_dsi_dcs_exit_sleep_mode hw w
    let w := if err < 0 then DRM_DEV_ERROR w "failed to exit sleep mode ret = %d\n" [err] else w
    let (err, w) := mipi_dsi_dcs_set_display_on hw w
    let w := if err < 0 then DRM_DEV_ERROR w "failed to set display on ret = %d\n" [err] else w
    some (0, w)

/-- Embedding of `pnc357db1_disable`. -/
def pnc357db1_disable (hw : Hw) (w : World) : Int × World :=
  let (ret, w) := mipi_dsi_dcs_set_display_off hw w
  let w := if ret < 0 then DRM_DEV_ERROR w "failed to set display off: %d\n" [ret] else w
  let (ret, w) := mipi_dsi_dcs_enter_sleep_mode hw w
  let w := if ret < 0 then DRM_DEV_ERROR w "failed to enter sleep mode: %d\n" [ret] else w
  (0, w)

/-- Embedding of `pnc357db1_unprepare`; the answer of `regulator_disable` is
discarded. -/
def pnc357db1_unprepare (hw : Hw) (w : World) : Int × World :=
  let w := gpiod_set_value w 1
  let w := msleep w 120
  let (_, w) := regulator_disable hw w
  (0, w)

/-! ## Mode exposure -/

/-- Modelled from the spec: `DRM_MODE_TYPE_PREFERRED` of `drm/drm_mode.h`, the
"preferred" mark of a mode (bit 3). -/
def DRM_MODE_TYPE_PREFERRED : Nat := 1 <<< 3

/-- Modelled from the spec: `DRM_MODE_TYPE_DRIVER` of `drm/drm_mode.h`, the
"driver-mandated" mark of a mode (bit 6). -/
def DRM_MODE_TYPE_DRIVER : Nat := 1 <<< 6

/-- Modelled from the spec: `DRM_MODE_FLAG_INTERLACE` of `drm/drm_mode.h` (bit 4). -/
def DRM_MODE_FLAG_INTERLACE : Nat := 1 <<< 4

/-- Modelled from the spec: `ENOMEM` of `errno-base.h`, the code of the
AllocationError. -/
def ENOMEM : Int := 12

/-- Modelled from the spec: the caller's display-info record,
`struct drm_display_info`, reduced to the two members the driver writes. -/
structure drm_display_info where
  width_mm : Nat
  height_mm : Nat
  deriving DecidableEq, Repr

/-- Modelled from the spec: the caller's `struct drm_connector`, reduced to its
list of probed modes and its display-info record. -/
structure drm_connector where
  probed_modes : List drm_display_mode
  display_info : drm_display_info
  deriving DecidableEq, Repr

/-- Modelled from the spec: `drm_mode_duplicate` is not part of the source file.
It produces a copy of the mode ("duplicated/copied so the caller may freely
mutate their copy") or nothing when the host cannot allocate it; `alloc_ok`
tells which. -/
def drm_mode_duplicate (alloc_ok : Bool) (mode : drm_display_mode) :
    Option drm_display_mode :=
  if alloc_ok then some mode else none

/-- Modelled from the spec: `drm_mode_set_name` is not part of the source file.
It writes the label `<hdisplay>x<vdisplay>`, followed by `i` for an interlaced
mode, into `name` and touches nothing else. -/
def drm_mode_set_name (mode : drm_display_mode) : drm_display_mode :=
  { mode with
    name := toString mode.hdisplay ++ "x" ++ toString mode.vdisplay ++
      (if mode.flags &&& DRM_MODE_FLAG_INTERLACE ≠ 0 then "i" else "") }

/-- Modelled from the spec: `drm_mode_probed_add` is not part of the source file.
It appends the mode to the connector's list of probed modes. -/
def drm_mode_probed_add (connector : drm_connector) (mode : drm_display_mode) :
    drm_connector :=
  { connector with probed_modes := connector.probed_modes ++ [mode] }

/-- Embedding of `pnc357db1_get_modes`.  `alloc_ok` says whether the host can
allocate the copy; `drm_mode_vrefresh`, used only for the log line, is a helper
outside the source file and is taken as given.  The result is the return value,
the caller's connector and the log. -/
def pnc357db1_get_modes (alloc_ok : Bool) (drm_mode_vrefresh : drm_display_mode → Int)
    (ctx : pnc357db1) (connector : drm_connector) (w : World) :
    Int × drm_connector × World :=
  let desc_mode := ctx.desc.mode
  match drm_mode_duplicate alloc_ok desc_mode with
  | none =>
    let w := DRM_DEV_ERROR w "failed to add mode %ux%ux@%u\n"
      [desc_mode.hdisplay, desc_mode.vdisplay, drm_mode_vrefresh desc_mode]
    (-ENOMEM, connector, w)
  | some mode =>
    let mode := drm_mode_set_name mode
    let connector := drm_mode_probed_add connector mode
    let connector := { connector with
      display_info := { connector.display_info with
        width_mm := mode.width_mm, height_mm := mode.height_mm } }
    (1, connector, w)

/-! ## Static configuration -/

/-- The init table `pnc357db1_init_cmds[]`. -/
def pnc357db1_init_cmds : List pnc357db1_init_cmd := [
  pnc357db1_init_cmd.mk 0x0a 0x31, pnc357db1_init_cmd.mk 0x58 0x11, pnc357db1_init_cmd.mk 0x00 0x00, pnc357db1_init_cmd.mk 0x89 0x30,
  pnc357db1_init_cmd.mk 0x80 0x0A, pnc357db1_init_cmd.mk 0x00 0x06, pnc357db1_init_cmd.mk 0x40 0x00, pnc357db1_init_cmd.mk 0x28 0x06,
  pnc357db1_init_cmd.mk 0x40 0x06, pnc357db1_init_cmd.mk 0x40 0x02, pnc357db1_init_cmd.mk 0x00 0x04, pnc357db1_init_cmd.mk 0x21 0x00,
  pnc357db1_init_cmd.mk 0x20 0x05, pnc357db1_init_cmd.mk 0xD0 0x00, pnc357db1_init_cmd.mk 0x16 0x00, pnc357db1_init_cmd.mk 0x0C 0x02,
  pnc357db1_init_cmd.mk 0x77 0x00, pnc357db1_init_cmd.mk 0xDA 0x18, pnc357db1_init_cmd.mk 0x00 0x10, pnc357db1_init_cmd.mk 0xE0 0x03,
  pnc357db1_init_cmd.mk 0x0C 0x20, pnc357db1_init_cmd.mk 0x00 0x06, pnc357db1_init_cmd.mk 0x0B 0x0B, pnc357db1_init_cmd.mk 0x33 0x0E,
  pnc357db1_init_cmd.mk 0x1C 0x2A, pnc357db1_init_cmd.mk 0x38 0x46, pnc357db1_init_cmd.mk 0x54 0x62, pnc357db1_init_cmd.mk 0x69 0x70,
  pnc357db1_init_cmd.mk 0x77 0x79, pnc357db1_init_cmd.mk 0x7B 0x7D, pnc357db1_init_cmd.mk 0x7E 0x01, pnc357db1_init_cmd.mk 0x02 0x01,
  pnc357db1_init_cmd.mk 0x00 0x09, pnc357db1_init_cmd.mk 0x40 0x09, pnc357db1_init_cmd.mk 0xBE 0x19, pnc357db1_init_cmd.mk 0xFC 0x19,
  pnc357db1_init_cmd.mk 0xFA 0x19, pnc357db1_init_cmd.mk 0xF8 0x1A, pnc357db1_init_cmd.mk 0x38 0x1A, pnc357db1_init_cmd.mk 0x78 0x1A,
  pnc357db1_init_cmd.mk 0xB6 0x2A, pnc357db1_init_cmd.mk 0xF6 0x2B, pnc357db1_init_cmd.mk 0x34 0x2B, pnc357db1_init_cmd.mk 0x74 0x3B,
  pnc357db1_init_cmd.mk 0x74 0x6B, pnc357db1_init_cmd.mk 0x74 0x39, pnc357db1_init_cmd.mk 0x00 0x06, pnc357db1_init_cmd.mk 0xB9 0x83,
  pnc357db1_init_cmd.mk 0x12 0x1A, pnc357db1_init_cmd.mk 0x55 0x00, pnc357db1_init_cmd.mk 0x39 0x00, pnc357db1_init_cmd.mk 0x03 0x51,
  pnc357db1_init_cmd.mk 0x08 0x00, pnc357db1_init_cmd.mk 0x39 0x00, pnc357db1_init_cmd.mk 0x02 0x53, pnc357db1_init_cmd.mk 0x24 0x39,
  pnc357db1_init_cmd.mk 0x00 0x1D, pnc357db1_init_cmd.mk 0xB1 0x1C, pnc357db1_init_cmd.mk 0x6B 0x6B, pnc357db1_init_cmd.mk 0x27 0xE7,
  pnc357db1_init_cmd.mk 0x00 0x1B, pnc357db1_init_cmd.mk 0x12 0x20, pnc357db1_init_cmd.mk 0x20 0x2D, pnc357db1_init_cmd.mk 0x2D 0x1F,
  pnc357db1_init_cmd.mk 0x33 0x31, pnc357db1_init_cmd.mk 0x40 0xCD, pnc357db1_init_cmd.mk 0xFF 0x1A, pnc357db1_init_cmd.mk 0x05 0x15,
  pnc357db1_init_cmd.mk 0x98 0x00, pnc357db1_init_cmd.mk 0x88 0xF9, pnc357db1_init_cmd.mk 0xFF 0xFF, pnc357db1_init_cmd.mk 0xCF 0x39,
  pnc357db1_init_cmd.mk 0x00 0x12, pnc357db1_init_cmd.mk 0xB2 0x00, pnc357db1_init_cmd.mk 0x6A 0x40, pnc357db1_init_cmd.mk 0x00 0x00,
  pnc357db1_init_cmd.mk 0x14 0x6E, pnc357db1_init_cmd.mk 0x40 0x73, pnc357db1_init_cmd.mk 0x02 0x80, pnc357db1_init_cmd.mk 0x21 0x21,
  pnc357db1_init_cmd.mk 0x00 0x00, pnc357db1_init_cmd.mk 0x10 0x27, pnc357db1_init_cmd.mk 0x39 0x00, pnc357db1_init_cmd.mk 0x2D 0xB4,
  pnc357db1_init_cmd.mk 0x64 0x00, pnc357db1_init_cmd.mk 0x08 0x7F, pnc357db1_init_cmd.mk 0x08 0x7F, pnc357db1_init_cmd.mk 0x00 0x62,
  pnc357db1_init_cmd.mk 0x01 0x72, pnc357db1_init_cmd.mk 0x01 0x72, pnc357db1_init_cmd.mk 0x00 0x60, pnc357db1_init_cmd.mk 0x00 0x00,
  pnc357db1_init_cmd.mk 0x0A 0x08, pnc357db1_init_cmd.mk 0x00 0x29, pnc357db1_init_cmd.mk 0x05 0x05, pnc357db1_init_cmd.mk 0x05 0x00,
  pnc357db1_init_cmd.mk 0x00 0x00, pnc357db1_init_cmd.mk 0x00 0x00, pnc357db1_init_cmd.mk 0x00 0x00, pnc357db1_init_cmd.mk 0x00 0x00,
  pnc357db1_init_cmd.mk 0x00 0x00, pnc357db1_init_cmd.mk 0xFF 0x00, pnc357db1_init_cmd.mk 0xFF 0x14, pnc357db1_init_cmd.mk 0x00 0x00,
  pnc357db1_init_cmd.mk 0x0F 0x0F, pnc357db1_init_cmd.mk 0x2D 0x2D, pnc357db1_init_cmd.mk 0x39 0x00, pnc357db1_init_cmd.mk 0x04 0xB6,
  pnc357db1_init_cmd.mk 0x8F 0x8F, pnc357db1_init_cmd.mk 0x03 0x39, pnc357db1_init_cmd.mk 0x00 0x03, pnc357db1_init_cmd.mk 0xBC 0x06,
  pnc357db1_init_cmd.mk 0x02 0x39, pnc357db1_init_cmd.mk 0x00 0x07, pnc357db1_init_cmd.mk 0xC0 0x34, pnc357db1_init_cmd.mk 0x34 0x44,
  pnc357db1_init_cmd.mk 0x00 0x08, pnc357db1_init_cmd.mk 0xD8 0x39, pnc357db1_init_cmd.mk 0x00 0x06, pnc357db1_init_cmd.mk 0xC9 0x00,
  pnc357db1_init_cmd.mk 0x1E 0x80, pnc357db1_init_cmd.mk 0xA5 0x01, pnc357db1_init_cmd.mk 0x39 0x00, pnc357db1_init_cmd.mk 0x07 0xCB,
  pnc357db1_init_cmd.mk 0x00 0x13, pnc357db1_init_cmd.mk 0x38 0x00, pnc357db1_init_cmd.mk 0x0B 0x27, pnc357db1_init_cmd.mk 0x39 0x00,
  pnc357db1_init_cmd.mk 0x02 0xCC, pnc357db1_init_cmd.mk 0x02 0x39, pnc357db1_init_cmd.mk 0x00 0x02, pnc357db1_init_cmd.mk 0xD1 0x07,
  pnc357db1_init_cmd.mk 0x39 0x00, pnc357db1_init_cmd.mk 0x29 0xD3, pnc357db1_init_cmd.mk 0x00 0xC0, pnc357db1_init_cmd.mk 0x08 0x08,
  pnc357db1_init_cmd.mk 0x08 0x04, pnc357db1_init_cmd.mk 0x04 0x04, pnc357db1_init_cmd.mk 0x14 0x02, pnc357db1_init_cmd.mk 0x07 0x07,
  pnc357db1_init_cmd.mk 0x07 0x31, pnc357db1_init_cmd.mk 0x13 0x12, pnc357db1_init_cmd.mk 0x12 0x12, pnc357db1_init_cmd.mk 0x03 0x03,
  pnc357db1_init_cmd.mk 0x03 0x32, pnc357db1_init_cmd.mk 0x10 0x11, pnc357db1_init_cmd.mk 0x00 0x11, pnc357db1_init_cmd.mk 0x32 0x10,
  pnc357db1_init_cmd.mk 0x03 0x00, pnc357db1_init_cmd.mk 0x03 0x32, pnc357db1_init_cmd.mk 0x10 0x03, pnc357db1_init_cmd.mk 0x00 0x03,
  pnc357db1_init_cmd.mk 0x00 0x00, pnc357db1_init_cmd.mk 0xFF 0x00, pnc357db1_init_cmd.mk 0x39 0x00, pnc357db1_init_cmd.mk 0x31 0xD5,
  pnc357db1_init_cmd.mk 0x19 0x19, pnc357db1_init_cmd.mk 0x18 0x18, pnc357db1_init_cmd.mk 0x02 0x02, pnc357db1_init_cmd.mk 0x03 0x03,
  pnc357db1_init_cmd.mk 0x04 0x04, pnc357db1_init_cmd.mk 0x05 0x05, pnc357db1_init_cmd.mk 0x06 0x06, pnc357db1_init_cmd.mk 0x07 0x07,
  pnc357db1_init_cmd.mk 0x00 0x00, pnc357db1_init_cmd.mk 0x01 0x01, pnc357db1_init_cmd.mk 0x18 0x18, pnc357db1_init_cmd.mk 0x40 0x40,
  pnc357db1_init_cmd.mk 0x20 0x20, pnc357db1_init_cmd.mk 0x18 0x18, pnc357db1_init_cmd.mk 0x18 0x18, pnc357db1_init_cmd.mk 0x40 0x40,
  pnc357db1_init_cmd.mk 0x18 0x18, pnc357db1_init_cmd.mk 0x2F 0x2F, pnc357db1_init_cmd.mk 0x31 0x31, pnc357db1_init_cmd.mk 0x2F 0x2F,
  pnc357db1_init_cmd.mk 0x31 0x31, pnc357db1_init_cmd.mk 0x18 0x18, pnc357db1_init_cmd.mk 0x41 0x41, pnc357db1_init_cmd.mk 0x41 0x41,
  pnc357db1_init_cmd.mk 0x39 0x00, pnc357db1_init_cmd.mk 0x31 0xD6, pnc357db1_init_cmd.mk 0x40 0x40, pnc357db1_init_cmd.mk 0x18 0x18,
  pnc357db1_init_cmd.mk 0x05 0x05, pnc357db1_init_cmd.mk 0x04 0x04, pnc357db1_init_cmd.mk 0x03 0x03, pnc357db1_init_cmd.mk 0x02 0x02,
  pnc357db1_init_cmd.mk 0x01 0x01, pnc357db1_init_cmd.mk 0x00 0x00, pnc357db1_init_cmd.mk 0x07 0x07, pnc357db1_init_cmd.mk 0x06 0x06,
  pnc357db1_init_cmd.mk 0x18 0x18, pnc357db1_init_cmd.mk 0x19 0x19, pnc357db1_init_cmd.mk 0x20 0x20, pnc357db1_init_cmd.mk 0x18 0x18,
  pnc357db1_init_cmd.mk 0x18 0x18, pnc357db1_init_cmd.mk 0x40 0x40, pnc357db1_init_cmd.mk 0x18 0x18, pnc357db1_init_cmd.mk 0x2F 0x2F,
  pnc357db1_init_cmd.mk 0x31 0x31, pnc357db1_init_cmd.mk 0x2F 0x2F, pnc357db1_init_cmd.mk 0x31 0x31, pnc357db1_init_cmd.mk 0x18 0x18,
  pnc357db1_init_cmd.mk 0x41 0x41, pnc357db1_init_cmd.mk 0x41 0x41, pnc357db1_init_cmd.mk 0x39 0x00, pnc357db1_init_cmd.mk 0x40 0xE1,
  pnc357db1_init_cmd.mk 0x11 0x00, pnc357db1_init_cmd.mk 0x00 0x89, pnc357db1_init_cmd.mk 0x30 0x80, pnc357db1_init_cmd.mk 0x0A 0x00,
  pnc357db1_init_cmd.mk 0x06 0x40, pnc357db1_init_cmd.mk 0x00 0x28, pnc357db1_init_cmd.mk 0x06 0x40, pnc357db1_init_cmd.mk 0x06 0x40,
  pnc357db1_init_cmd.mk 0x02 0x00, pnc357db1_init_cmd.mk 0x04 0x21, pnc357db1_init_cmd.mk 0x00 0x20, pnc357db1_init_cmd.mk 0x05 0xD0,
  pnc357db1_init_cmd.mk 0x00 0x16, pnc357db1_init_cmd.mk 0x00 0x0C, pnc357db1_init_cmd.mk 0x02 0x77, pnc357db1_init_cmd.mk 0x00 0xDA,
  pnc357db1_init_cmd.mk 0x18 0x00, pnc357db1_init_cmd.mk 0x10 0xE0, pnc357db1_init_cmd.mk 0x03 0x0C, pnc357db1_init_cmd.mk 0x20 0x00,
  pnc357db1_init_cmd.mk 0x06 0x0B, pnc357db1_init_cmd.mk 0x0B 0x33, pnc357db1_init_cmd.mk 0x0E 0x1C, pnc357db1_init_cmd.mk 0x2A 0x38,
  pnc357db1_init_cmd.mk 0x46 0x54, pnc357db1_init_cmd.mk 0x62 0x69, pnc357db1_init_cmd.mk 0x70 0x77, pnc357db1_init_cmd.mk 0x79 0x7B,
  pnc357db1_init_cmd.mk 0x7D 0x7E, pnc357db1_init_cmd.mk 0x01 0x02, pnc357db1_init_cmd.mk 0x01 0x00, pnc357db1_init_cmd.mk 0x09 0x39,
  pnc357db1_init_cmd.mk 0x00 0x0C, pnc357db1_init_cmd.mk 0xE7 0x06, pnc357db1_init_cmd.mk 0x14 0x14, pnc357db1_init_cmd.mk 0x1A 0x23,
  pnc357db1_init_cmd.mk 0x38 0x00, pnc357db1_init_cmd.mk 0x23 0x5D, pnc357db1_init_cmd.mk 0x02 0x02, pnc357db1_init_cmd.mk 0x39 0x00,
  pnc357db1_init_cmd.mk 0x02 0xBD, pnc357db1_init_cmd.mk 0x01 0x39, pnc357db1_init_cmd.mk 0x00 0x04, pnc357db1_init_cmd.mk 0xB1 0x01,
  pnc357db1_init_cmd.mk 0x23 0x00, pnc357db1_init_cmd.mk 0x39 0x00, pnc357db1_init_cmd.mk 0x25 0xD8, pnc357db1_init_cmd.mk 0x20 0x00,
  pnc357db1_init_cmd.mk 0x02 0x22, pnc357db1_init_cmd.mk 0x00 0x00, pnc357db1_init_cmd.mk 0x20 0x00, pnc357db1_init_cmd.mk 0x02 0x22,
  pnc357db1_init_cmd.mk 0x00 0x00, pnc357db1_init_cmd.mk 0x20 0x00, pnc357db1_init_cmd.mk 0x02 0x22, pnc357db1_init_cmd.mk 0x00 0x00,
  pnc357db1_init_cmd.mk 0x20 0x00, pnc357db1_init_cmd.mk 0x02 0x22, pnc357db1_init_cmd.mk 0x00 0x00, pnc357db1_init_cmd.mk 0x20 0x00,
  pnc357db1_init_cmd.mk 0x02 0x22, pnc357db1_init_cmd.mk 0x00 0x00, pnc357db1_init_cmd.mk 0x20 0x00, pnc357db1_init_cmd.mk 0x02 0x22,
  pnc357db1_init_cmd.mk 0x00 0x00, pnc357db1_init_cmd.mk 0x39 0x00, pnc357db1_init_cmd.mk 0x1A 0xE1, pnc357db1_init_cmd.mk 0x40 0x09,
  pnc357db1_init_cmd.mk 0xBE 0x19, pnc357db1_init_cmd.mk 0xFC 0x19, pnc357db1_init_cmd.mk 0xFA 0x19, pnc357db1_init_cmd.mk 0xF8 0x1A,
  pnc357db1_init_cmd.mk 0x38 0x1A, pnc357db1_init_cmd.mk 0x78 0x1A, pnc357db1_init_cmd.mk 0xB6 0x2A, pnc357db1_init_cmd.mk 0xF6 0x2B,
  pnc357db1_init_cmd.mk 0x34 0x2B, pnc357db1_init_cmd.mk 0x74 0x3B, pnc357db1_init_cmd.mk 0x74 0x6B, pnc357db1_init_cmd.mk 0xF4 0x39,
  pnc357db1_init_cmd.mk 0x00 0x0D, pnc357db1_init_cmd.mk 0xE7 0x02, pnc357db1_init_cmd.mk 0x00 0x40, pnc357db1_init_cmd.mk 0x01 0x84,
  pnc357db1_init_cmd.mk 0x13 0xBE, pnc357db1_init_cmd.mk 0x14 0x48, pnc357db1_init_cmd.mk 0x00 0x04, pnc357db1_init_cmd.mk 0x26 0x39,
  pnc357db1_init_cmd.mk 0x00 0x08, pnc357db1_init_cmd.mk 0xCB 0x1F, pnc357db1_init_cmd.mk 0x55 0x03, pnc357db1_init_cmd.mk 0x28 0x0D,
  pnc357db1_init_cmd.mk 0x08 0x0A, pnc357db1_init_cmd.mk 0x39 0x00, pnc357db1_init_cmd.mk 0x02 0xBD, pnc357db1_init_cmd.mk 0x02 0x39,
  pnc357db1_init_cmd.mk 0x00 0x0D, pnc357db1_init_cmd.mk 0xD8 0xAF, pnc357db1_init_cmd.mk 0xFF 0xFA, pnc357db1_init_cmd.mk 0xFA 0xBF,
  pnc357db1_init_cmd.mk 0xEA 0xAF, pnc357db1_init_cmd.mk 0xFF 0xFA, pnc357db1_init_cmd.mk 0xFA 0xBF, pnc357db1_init_cmd.mk 0xEA 0x39,
  pnc357db1_init_cmd.mk 0x00 0x23, pnc357db1_init_cmd.mk 0xE7 0x01, pnc357db1_init_cmd.mk 0x05 0x01, pnc357db1_init_cmd.mk 0x03 0x01,
  pnc357db1_init_cmd.mk 0x03 0x04, pnc357db1_init_cmd.mk 0x02 0x02, pnc357db1_init_cmd.mk 0x24 0x00, pnc357db1_init_cmd.mk 0x24 0x81,
  pnc357db1_init_cmd.mk 0x02 0x40, pnc357db1_init_cmd.mk 0x00 0x29, pnc357db1_init_cmd.mk 0x60 0x03, pnc357db1_init_cmd.mk 0x02 0x01,
  pnc357db1_init_cmd.mk 0x00 0x00, pnc357db1_init_cmd.mk 0x00 0x00, pnc357db1_init_cmd.mk 0x00 0x00, pnc357db1_init_cmd.mk 0x00 0x00,
  pnc357db1_init_cmd.mk 0x00 0x00, pnc357db1_init_cmd.mk 0x00 0x00, pnc357db1_init_cmd.mk 0x00 0x39, pnc357db1_init_cmd.mk 0x00 0x02,
  pnc357db1_init_cmd.mk 0xBD 0x03, pnc357db1_init_cmd.mk 0x39 0x00, pnc357db1_init_cmd.mk 0x19 0xD8, pnc357db1_init_cmd.mk 0xAA 0xAA,
  pnc357db1_init_cmd.mk 0xAA 0xAB, pnc357db1_init_cmd.mk 0xBF 0xEA, pnc357db1_init_cmd.mk 0xAA 0xAA, pnc357db1_init_cmd.mk 0xAA 0xAB,
  pnc357db1_init_cmd.mk 0xBF 0xEA, pnc357db1_init_cmd.mk 0xAF 0xFF, pnc357db1_init_cmd.mk 0xFA 0xFA, pnc357db1_init_cmd.mk 0xBF 0xEA,
  pnc357db1_init_cmd.mk 0xAF 0xFF, pnc357db1_init_cmd.mk 0xFA 0xFA, pnc357db1_init_cmd.mk 0xBF 0xEA, pnc357db1_init_cmd.mk 0x39 0x00,
  pnc357db1_init_cmd.mk 0x03 0xE1, pnc357db1_init_cmd.mk 0x01 0x3F, pnc357db1_init_cmd.mk 0x39 0x00, pnc357db1_init_cmd.mk 0x02 0xBD,
  pnc357db1_init_cmd.mk 0x00 0x39, pnc357db1_init_cmd.mk 0x00 0x2F, pnc357db1_init_cmd.mk 0xE0 0x00, pnc357db1_init_cmd.mk 0x13 0x30,
  pnc357db1_init_cmd.mk 0x36 0x40, pnc357db1_init_cmd.mk 0x78 0x8B, pnc357db1_init_cmd.mk 0x94 0x95, pnc357db1_init_cmd.mk 0x97 0x94,
  pnc357db1_init_cmd.mk 0x94 0x91, pnc357db1_init_cmd.mk 0x8F 0x8F, pnc357db1_init_cmd.mk 0x8B 0x8A, pnc357db1_init_cmd.mk 0x8C 0x8E,
  pnc357db1_init_cmd.mk 0xA6 0xB7, pnc357db1_init_cmd.mk 0x4D 0x7F, pnc357db1_init_cmd.mk 0x00 0x13, pnc357db1_init_cmd.mk 0x30 0x36,
  pnc357db1_init_cmd.mk 0x40 0x78, pnc357db1_init_cmd.mk 0x8B 0x94, pnc357db1_init_cmd.mk 0x95 0x97, pnc357db1_init_cmd.mk 0x94 0x94,
  pnc357db1_init_cmd.mk 0x91 0x8F, pnc357db1_init_cmd.mk 0x8F 0x8B, pnc357db1_init_cmd.mk 0x8A 0x8C, pnc357db1_init_cmd.mk 0x8E 0xA6,
  pnc357db1_init_cmd.mk 0xB7 0x4D, pnc357db1_init_cmd.mk 0x7F 0x39, pnc357db1_init_cmd.mk 0x00 0x05, pnc357db1_init_cmd.mk 0xBA 0x70,
  pnc357db1_init_cmd.mk 0x03 0xA8, pnc357db1_init_cmd.mk 0x92 0x39, pnc357db1_init_cmd.mk 0x00 0x25, pnc357db1_init_cmd.mk 0xD8 0xEA,
  pnc357db1_init_cmd.mk 0xAA 0xAA, pnc357db1_init_cmd.mk 0xAE 0xAA, pnc357db1_init_cmd.mk 0xAF 0xEA, pnc357db1_init_cmd.mk 0xAA 0xAA,
  pnc357db1_init_cmd.mk 0xAE 0xAA, pnc357db1_init_cmd.mk 0xAF 0xE0, pnc357db1_init_cmd.mk 0x00 0x0A, pnc357db1_init_cmd.mk 0x2E 0x80,
  pnc357db1_init_cmd.mk 0x2F 0xE0, pnc357db1_init_cmd.mk 0x00 0x0A, pnc357db1_init_cmd.mk 0x2E 0x80, pnc357db1_init_cmd.mk 0x2F 0xE0,
  pnc357db1_init_cmd.mk 0x00 0x0A, pnc357db1_init_cmd.mk 0x2E 0x80, pnc357db1_init_cmd.mk 0x2F 0xE0, pnc357db1_init_cmd.mk 0x00 0x0A,
  pnc357db1_init_cmd.mk 0x2E 0x80, pnc357db1_init_cmd.mk 0x2F 0x39, pnc357db1_init_cmd.mk 0x00 0x02, pnc357db1_init_cmd.mk 0xBD 0x00,
  pnc357db1_init_cmd.mk 0x39 0x00, pnc357db1_init_cmd.mk 0x02 0xC1, pnc357db1_init_cmd.mk 0x01 0x39, pnc357db1_init_cmd.mk 0x00 0x02,
  pnc357db1_init_cmd.mk 0xBD 0x01, pnc357db1_init_cmd.mk 0x39 0x00, pnc357db1_init_cmd.mk 0x3B 0xC1, pnc357db1_init_cmd.mk 0x00 0x04,
  pnc357db1_init_cmd.mk 0x08 0x0C, pnc357db1_init_cmd.mk 0x10 0x14, pnc357db1_init_cmd.mk 0x18 0x1C, pnc357db1_init_cmd.mk 0x1F 0x23,
  pnc357db1_init_cmd.mk 0x27 0x2B, pnc357db1_init_cmd.mk 0x2F 0x33, pnc357db1_init_cmd.mk 0x37 0x3B, pnc357db1_init_cmd.mk 0x3F 0x43,
  pnc357db1_init_cmd.mk 0x47 0x4B, pnc357db1_init_cmd.mk 0x52 0x5A, pnc357db1_init_cmd.mk 0x62 0x69, pnc357db1_init_cmd.mk 0x71 0x79,
  pnc357db1_init_cmd.mk 0x81 0x89, pnc357db1_init_cmd.mk 0x91 0x98, pnc357db1_init_cmd.mk 0xA1 0xA9, pnc357db1_init_cmd.mk 0xB1 0xB9,
  pnc357db1_init_cmd.mk 0xC1 0xCA, pnc357db1_init_cmd.mk 0xD2 0xDA, pnc357db1_init_cmd.mk 0xE3 0xEA, pnc357db1_init_cmd.mk 0xF4 0xF8,
  pnc357db1_init_cmd.mk 0xF9 0xFB, pnc357db1_init_cmd.mk 0xFD 0xFF, pnc357db1_init_cmd.mk 0x16 0xA4, pnc357db1_init_cmd.mk 0x44 0x16,
  pnc357db1_init_cmd.mk 0x90 0xE7, pnc357db1_init_cmd.mk 0xF9 0x71, pnc357db1_init_cmd.mk 0xA0 0xF3, pnc357db1_init_cmd.mk 0x1F 0x40,
  pnc357db1_init_cmd.mk 0x39 0x00, pnc357db1_init_cmd.mk 0x02 0xBD, pnc357db1_init_cmd.mk 0x02 0x39, pnc357db1_init_cmd.mk 0x00 0x3B,
  pnc357db1_init_cmd.mk 0xC1 0x00, pnc357db1_init_cmd.mk 0x04 0x08, pnc357db1_init_cmd.mk 0x0C 0x10, pnc357db1_init_cmd.mk 0x14 0x18,
  pnc357db1_init_cmd.mk 0x1C 0x20, pnc357db1_init_cmd.mk 0x24 0x28, pnc357db1_init_cmd.mk 0x2D 0x31, pnc357db1_init_cmd.mk 0x35 0x39,
  pnc357db1_init_cmd.mk 0x3D 0x41, pnc357db1_init_cmd.mk 0x45 0x49, pnc357db1_init_cmd.mk 0x4D 0x55, pnc357db1_init_cmd.mk 0x5D 0x65,
  pnc357db1_init_cmd.mk 0x6D 0x75, pnc357db1_init_cmd.mk 0x7D 0x85, pnc357db1_init_cmd.mk 0x8D 0x94, pnc357db1_init_cmd.mk 0x9C 0xA4,
  pnc357db1_init_cmd.mk 0xAC 0xB4, pnc357db1_init_cmd.mk 0xBC 0xC4, pnc357db1_init_cmd.mk 0xCC 0xD4, pnc357db1_init_cmd.mk 0xDC 0xE4,
  pnc357db1_init_cmd.mk 0xEC 0xF4, pnc357db1_init_cmd.mk 0xF8 0xFA, pnc357db1_init_cmd.mk 0xFC 0xFE, pnc357db1_init_cmd.mk 0xFF 0x06,
  pnc357db1_init_cmd.mk 0xAA 0xFC, pnc357db1_init_cmd.mk 0x5B 0xFF, pnc357db1_init_cmd.mk 0xFF 0xA4, pnc357db1_init_cmd.mk 0xF9 0x86,
  pnc357db1_init_cmd.mk 0xF9 0x55, pnc357db1_init_cmd.mk 0x40 0x39, pnc357db1_init_cmd.mk 0x00 0x02, pnc357db1_init_cmd.mk 0xBD 0x03,
  pnc357db1_init_cmd.mk 0x39 0x00, pnc357db1_init_cmd.mk 0x3B 0xC1, pnc357db1_init_cmd.mk 0x00 0x04, pnc357db1_init_cmd.mk 0x07 0x0B,
  pnc357db1_init_cmd.mk 0x0F 0x13, pnc357db1_init_cmd.mk 0x17 0x1B, pnc357db1_init_cmd.mk 0x1F 0x23, pnc357db1_init_cmd.mk 0x27 0x2C,
  pnc357db1_init_cmd.mk 0x30 0x33, pnc357db1_init_cmd.mk 0x38 0x3C, pnc357db1_init_cmd.mk 0x40 0x44, pnc357db1_init_cmd.mk 0x48 0x4C,
  pnc357db1_init_cmd.mk 0x53 0x5B, pnc357db1_init_cmd.mk 0x63 0x6B, pnc357db1_init_cmd.mk 0x72 0x7A, pnc357db1_init_cmd.mk 0x82 0x89,
  pnc357db1_init_cmd.mk 0x91 0x99, pnc357db1_init_cmd.mk 0xA1 0xA9, pnc357db1_init_cmd.mk 0xB1 0xB9, pnc357db1_init_cmd.mk 0xC1 0xC9,
  pnc357db1_init_cmd.mk 0xD1 0xDA, pnc357db1_init_cmd.mk 0xE2 0xEA, pnc357db1_init_cmd.mk 0xF3 0xF6, pnc357db1_init_cmd.mk 0xF9 0xFA,
  pnc357db1_init_cmd.mk 0xFE 0xFF, pnc357db1_init_cmd.mk 0x0F 0x9A, pnc357db1_init_cmd.mk 0xFC 0x31, pnc357db1_init_cmd.mk 0x40 0xE4,
  pnc357db1_init_cmd.mk 0xFB 0xE9, pnc357db1_init_cmd.mk 0xA3 0xD9, pnc357db1_init_cmd.mk 0x77 0x00, pnc357db1_init_cmd.mk 0x39 0x00,
  pnc357db1_init_cmd.mk 0x02 0xBD, pnc357db1_init_cmd.mk 0x02 0x39, pnc357db1_init_cmd.mk 0x00 0x02, pnc357db1_init_cmd.mk 0xBF 0x72,
  pnc357db1_init_cmd.mk 0x39 0x00, pnc357db1_init_cmd.mk 0x02 0xBD, pnc357db1_init_cmd.mk 0x00 0x39, pnc357db1_init_cmd.mk 0x00 0x08,
  pnc357db1_init_cmd.mk 0xBF 0xFD, pnc357db1_init_cmd.mk 0x00 0x80, pnc357db1_init_cmd.mk 0x9C 0x10, pnc357db1_init_cmd.mk 0x00 0x80,
  pnc357db1_init_cmd.mk 0x39 0x00, pnc357db1_init_cmd.mk 0x02 0xE9, pnc357db1_init_cmd.mk 0xDE 0x39, pnc357db1_init_cmd.mk 0x00 0x04,
  pnc357db1_init_cmd.mk 0xB1 0xCC, pnc357db1_init_cmd.mk 0x03 0x00, pnc357db1_init_cmd.mk 0x39 0x00, pnc357db1_init_cmd.mk 0x02 0xE9,
  pnc357db1_init_cmd.mk 0x3F 0x39, pnc357db1_init_cmd.mk 0x00 0x07, pnc357db1_init_cmd.mk 0xD0 0x07, pnc357db1_init_cmd.mk 0xC0 0x08,
  pnc357db1_init_cmd.mk 0x03 0x11, pnc357db1_init_cmd.mk 0x00 0x39, pnc357db1_init_cmd.mk 0x00 0x03, pnc357db1_init_cmd.mk 0xB0 0x00,
  pnc357db1_init_cmd.mk 0x00 0x39, pnc357db1_init_cmd.mk 0x00 0x02, pnc357db1_init_cmd.mk 0xE9 0xCF, pnc357db1_init_cmd.mk 0x39 0x00,
  pnc357db1_init_cmd.mk 0x02 0xBA, pnc357db1_init_cmd.mk 0x03 0x39, pnc357db1_init_cmd.mk 0x00 0x02, pnc357db1_init_cmd.mk 0xE9 0x3F,
  pnc357db1_init_cmd.mk 0x39 0x00, pnc357db1_init_cmd.mk 0x01 0x11, pnc357db1_init_cmd.mk 0x39 0x00, pnc357db1_init_cmd.mk 0x01 0x29
]

/-- The configuration `pnc357db1_desc` of the one supported variant;
`num_init_cmds` is `ARRAY_SIZE(pnc357db1_init_cmds)`. -/
def pnc357db1_desc : pnc357db1_panel_desc where
  mode := {
    clock := 275000000
    hdisplay := 1600
    hsync_start := 1600 + 60
    hsync_end := 1600 + 60 + 20
    htotal := 1600 + 60 + 20 + 20
    vdisplay := 2560
    vsync_start := 2560 + 112
    vsync_end := 2560 + 112 + 4
    vtotal := 2560 + 112 + 4 + 18
    width_mm := 266
    height_mm := 166
    type := DRM_MODE_TYPE_DRIVER ||| DRM_MODE_TYPE_PREFERRED }
  lanes := 4
  format := .MIPI_DSI_FMT_RGB888
  init_cmds := pnc357db1_init_cmds
  num_init_cmds := pnc357db1_init_cmds.length

/-! ## Expected traces -/

/-- One raw two-byte write per record, in table order: the write sequence the
specification asks of a replay of `cmds`. -/
def table_writes (cmds : List pnc357db1_init_cmd) : List HwOp :=
  cmds.map fun cmd => HwOp.mipi_dsi_dcs_write_buffer [cmd.data0, cmd.data1]

/-- The bytes of record `j` of the table (empty past its end). -/
def record_bytes (cmds : List pnc357db1_init_cmd) (j : Nat) : List Nat :=
  match cmds[j]? with
  | some cmd => [cmd.data0, cmd.data1]
  | none => []

/-- The requests the transport has seen when record `j` is about to be written
in a call of enable entered in world `w`: those made before the call, the 10 ms
wait, and the writes of records `0 .. j-1`. -/
def history_at_write (ctx : pnc357db1) (w : World) (j : Nat) : List HwOp :=
  w.trace ++ HwOp.msleep 10 :: table_writes (ctx.desc.init_cmds.take j)

/-- The answer of the transport to the raw write of record `j` in a call of
enable entered in world `w`, when records `0 .. j-1` were written before it. -/
def write_answer (hw : Hw) (ctx : pnc357db1) (w : World) (j : Nat) : Int :=
  hw.mipi_dsi_dcs_write_buffer (history_at_write ctx w j) (record_bytes ctx.desc.init_cmds j)

/-- The world after a call of enable whose replay completed: the trace grew by
the 10 ms wait, the writes of the first `num_init_cmds` records, the 120 ms wait
and the two DCS commands; the log grew by one line per failed DCS command. -/
def world_after_replay (hw : Hw) (ctx : pnc357db1) (w : World) : World :=
  let t := history_at_write ctx w ctx.desc.num_init_cmds ++ [HwOp.msleep 120]
  let e1 := hw.mipi_dsi_dcs_exit_sleep_mode t
  let t1 := t ++ [HwOp.mipi_dsi_dcs_exit_sleep_mode]
  let e2 := hw.mipi_dsi_dcs_set_display_on t1
  { trace := t1 ++ [HwOp.mipi_dsi_dcs_set_display_on]
    log := w.log
      ++ (if e1 < 0 then [⟨"failed to exit sleep mode ret = %d\n", [e1]⟩] else [])
      ++ (if e2 < 0 then [⟨"failed to set display on ret = %d\n", [e2]⟩] else []) }

/-- Whether a request is a raw transport write. -/
def HwOp.is_raw_write : HwOp → Bool
  | .mipi_dsi_dcs_write_buffer _ => true
  | _ => false

/-- The requests of a call of enable whose replay completed; a function of the
table alone. -/
def enable_trace (desc : pnc357db1_panel_desc) : List HwOp :=
  HwOp.msleep 10 :: table_writes (desc.init_cmds.take desc.num_init_cmds) ++
    [HwOp.msleep 120, HwOp.mipi_dsi_dcs_exit_sleep_mode, HwOp.mipi_dsi_dcs_set_display_on]

/-! ## Concrete collaborators and worlds -/

/-- The world before the driver has done anything. -/
def World.fresh : World := ⟨[], []⟩

/-- The panel instance bound to the one supported variant. -/
def the_panel : pnc357db1 := ⟨pnc357db1_desc⟩

/-- Collaborators that never fail: the regulator and the DCS commands answer 0,
a raw write answers the number of bytes written. -/
def hw_ok : Hw where
  regulator_enable := fun _ => 0
  regulator_disable := fun _ => 0
  mipi_dsi_dcs_write_buffer := fun _ data => data.length
  mipi_dsi_dcs_exit_sleep_mode := fun _ => 0
  mipi_dsi_dcs_set_display_on := fun _ => 0
  mipi_dsi_dcs_set_display_off := fun _ => 0
  mipi_dsi_dcs_enter_sleep_mode := fun _ => 0

/-- A transport that refuses the tenth raw write it receives with `-EIO` (-5)
and accepts every other one. -/
def hw_tenth_write_fails : Hw :=
  { hw_ok with
    mipi_dsi_dcs_write_buffer := fun t data =>
      if (t.filter HwOp.is_raw_write).length = 9 then -5 else data.length }

/-- A transport that accepts every raw write and refuses "exit sleep mode" with
`-EIO` (-5) and "display on" with `-ETIMEDOUT` (-110). -/
def hw_dcs_on_fails : Hw :=
  { hw_ok with
    mipi_dsi_dcs_exit_sleep_mode := fun _ => -5
    mipi_dsi_dcs_set_display_on := fun _ => -110 }

/-- A regulator that cannot be enabled and answers `-ENODEV` (-19). -/
def hw_rail_fails : Hw :=
  { hw_ok with regulator_enable := fun _ => -19 }

/-- The world after one successful prepare from the fresh world. -/
def world_prepared : World := (pnc357db1_prepare hw_ok World.fresh).2

/-! ## Configuration lookup -/

/-- One entry of the match table, `struct of_device_id`, reduced to the
compatibility key and the configuration it points to. -/
structure of_device_id where
  compatible : String
  data : pnc357db1_panel_desc

/-- The match table `pnc357db1_of_match[]`, without its sentinel. -/
def pnc357db1_of_match : List of_device_id :=
  [{ compatible := "pnc357db1", data := pnc357db1_desc }]

/-- Modelled from the spec: `of_device_get_match_data` is not part of the source
file.  "Given a compatibility key (string), return the matching PanelConfig or
NotFound": the data of the first entry of the match table with that key. -/
def of_device_get_match_data (compatible : String) : Option pnc357db1_panel_desc :=
  (pnc357db1_of_match.find? fun id => id.compatible == compatible).map fun id => id.data

/-! ## Measures on traces -/

/-- The number of bytes handed to the transport by the raw writes of a trace. -/
def raw_bytes_sent : List HwOp → Nat
  | [] => 0
  | .mipi_dsi_dcs_write_buffer data :: rest => data.length + raw_bytes_sent rest
  | _ :: rest => raw_bytes_sent rest

/-- Whether a request goes to the power rail or to the reset line. -/
def HwOp.touches_power : HwOp → Bool
  | .regulator_enable => true
  | .regulator_disable => true
  | .gpiod_set_value _ => true
  | _ => false

/-- The change of the rail balance made by one request issued after the
requests `seen`: +1 for a rail enable that the regulator answers with 0, 0 for
one it refuses, -1 for a rail disable, 0 for anything else. -/
def rail_delta (hw : Hw) (seen : List HwOp) : HwOp → Int
  | .regulator_enable => if hw.regulator_enable seen = 0 then 1 else 0
  | .regulator_disable => -1
  | _ => 0

/-- The change of the rail balance made by the requests `ops` issued, in order,
after the requests `seen`. -/
def rail_balance_from (hw : Hw) : List HwOp → List HwOp → Int
  | _, [] => 0
  | seen, op :: rest => rail_delta hw seen op + rail_balance_from hw (seen ++ [op]) rest

/-- The rail balance of a trace: rail enables that took effect minus rail
disables. -/
def rail_balance (hw : Hw) (trace : List HwOp) : Int :=
  rail_balance_from hw [] trace

/-! ## The replay loop -/

theorem table_writes_take_succ (cmds : List pnc357db1_init_cmd) (i : Nat)
    (cmd : pnc357db1_init_cmd) (h : cmds[i]? = some cmd) :
    table_writes (cmds.take (i + 1)) =
      table_writes (cmds.take i) ++ [HwOp.mipi_dsi_dcs_write_buffer [cmd.data0, cmd.data1]] := by
  simp [table_writes, List.take_succ, h]

theorem init_cmd_data_take (cmd : pnc357db1_init_cmd) :
    cmd.data.take pnc357db1_INIT_CMD_LEN = [cmd.data0, cmd.data1] := by
  simp [pnc357db1_init_cmd.data, pnc357db1_INIT_CMD_LEN]

/-- One iteration of the loop at an index inside the table. -/
theorem enable_loop_step (hw : Hw) (ctx : pnc357db1) (w : World) (l : List LogLine)
    (n i : Nat) (hi : i < ctx.desc.init_cmds.length) :
    pnc357db1_enable_loop hw ctx.desc (n + 1) i ⟨history_at_write ctx w i, l⟩ =
      if write_answer hw ctx w i < 0 then
        .returned (write_answer hw ctx w i) ⟨history_at_write ctx w (i + 1), l⟩
      else
        pnc357db1_enable_loop hw ctx.desc n (i + 1) ⟨history_at_write ctx w (i + 1), l⟩ := by
  obtain ⟨cmd, hcmd⟩ : ∃ cmd, ctx.desc.init_cmds[i]? = some cmd :=
    ⟨ctx.desc.init_cmds[i], List.getElem?_eq_getElem hi⟩
  have hw1 : history_at_write ctx w (i + 1) =
      history_at_write ctx w i ++ [HwOp.mipi_dsi_dcs_write_buffer [cmd.data0, cmd.data1]] := by
    simp [history_at_write, table_writes_take_succ _ _ _ hcmd]
  have hans : write_answer hw ctx w i =
      hw.mipi_dsi_dcs_write_buffer (history_at_write ctx w i) [cmd.data0, cmd.data1] := by
    simp [write_answer, record_bytes, hcmd]
  rw [pnc357db1_enable_loop]
  simp only [hcmd, mipi_dsi_dcs_write_buffer, init_cmd_data_take, World.emit, hans, hw1]

/-- The loop runs to its end when every remaining write is accepted. -/
theorem enable_loop_completed (hw : Hw) (ctx : pnc357db1) (w : World) (l : List LogLine) :
    ∀ (n i : Nat), i + n ≤ ctx.desc.init_cmds.length →
      (∀ j, i ≤ j → j < i + n → 0 ≤ write_answer hw ctx w j) →
      pnc357db1_enable_loop hw ctx.desc n i ⟨history_at_write ctx w i, l⟩ =
        .completed ⟨history_at_write ctx w (i + n), l⟩ := by
  intro n
  induction n with
  | zero => intro i _ _; simp [pnc357db1_enable_loop]
  | succ n ih =>
    intro i hlen hacc
    rw [enable_loop_step hw ctx w l n i (by omega)]
    have h0 : ¬ write_answer hw ctx w i < 0 := not_lt.mpr (hacc i le_rfl (by omega))
    rw [if_neg h0, ih (i + 1) (by omega) (fun j h1 h2 => hacc j (by omega) (by omega))]
    congr 3
    omega

/-- The loop returns the answer of the first refused write, right after it. -/
theorem enable_loop_returned (hw : Hw) (ctx : pnc357db1) (w : World) (l : List LogLine)
    (m : Nat) :
    ∀ (n i : Nat), i ≤ m → m < i + n → i + n ≤ ctx.desc.init_cmds.length →
      (∀ j, i ≤ j → j < m → 0 ≤ write_answer hw ctx w j) →
      write_answer hw ctx w m < 0 →
      pnc357db1_enable_loop hw ctx.desc n i ⟨history_at_write ctx w i, l⟩ =
        .returned (write_answer hw ctx w m) ⟨history_at_write ctx w (m + 1), l⟩ := by
  intro n
  induction n with
  | zero => intro i h1 h2; omega
  | succ n ih =>
    intro i him hmn hlen hacc hfail
    rw [enable_loop_step hw ctx w l n i (by omega)]
    rcases Nat.eq_or_lt_of_le him with h | h
    · subst h
      rw [if_pos hfail]
    · have h0 : ¬ write_answer hw ctx w i < 0 := not_lt.mpr (hacc i le_rfl h)
      rw [if_neg h0]
      exact ih (i + 1) h (by omega) (by omega) (fun j h1 h2 => hacc j (by omega) h2) hfail

/-! ## Facts about the expected traces -/

theorem table_writes_length (cmds : List pnc357db1_init_cmd) :
    (table_writes cmds).length = cmds.length := by
  simp [table_writes]

theorem table_writes_filter_raw (cmds : List pnc357db1_init_cmd) :
    (table_writes cmds).filter HwOp.is_raw_write = table_writes cmds := by
  induction cmds with
  | nil => rfl
  | cons c cs ih =>
    simp only [table_writes, List.map_cons] at ih ⊢
    simp [HwOp.is_raw_write, ih]

theorem not_mem_table_writes (cmds : List pnc357db1_init_cmd) (op : HwOp)
    (h : op.is_raw_write = false) : op ∉ table_writes cmds := by
  intro hmem
  obtain ⟨c, _, hc⟩ := List.mem_map.mp hmem
  subst hc
  simp [HwOp.is_raw_write] at h

/-- A call of enable whose table writes are all accepted completes the replay. -/
theorem enable_completes (hw : Hw) (ctx : pnc357db1) (w : World)
    (hnum : ctx.desc.num_init_cmds ≤ ctx.desc.init_cmds.length)
    (hacc : ∀ j, j < ctx.desc.num_init_cmds → 0 ≤ write_answer hw ctx w j) :
    pnc357db1_enable hw ctx w = some (0, world_after_replay hw ctx w) := by
  have hloop := enable_loop_completed hw ctx w w.log ctx.desc.num_init_cmds 0
    (by omega) (fun j _ h => hacc j (by omega))
  have h0 : history_at_write ctx w 0 = w.trace ++ [HwOp.msleep 10] := by
    simp [history_at_write, table_writes]
  rw [h0, Nat.zero_add] at hloop
  simp only [pnc357db1_enable, msleep, World.emit, hloop]
  simp only [mipi_dsi_dcs_exit_sleep_mode, mipi_dsi_dcs_set_display_on, World.emit,
    DRM_DEV_ERROR, world_after_replay]
  split_ifs <;> simp

theorem world_after_replay_trace (hw : Hw) (ctx : pnc357db1) (w : World) :
    (world_after_replay hw ctx w).trace = w.trace ++ enable_trace ctx.desc := by
  simp [world_after_replay, enable_trace, history_at_write]

/-! ## enable -/

/-- C1: if the transport accepts the first `k-1` table writes of a call of
enable and answers the `k`-th with a negative value, enable returns exactly that
value; the call has made the 10 ms wait and the raw writes of the first `k`
records in table order, exactly `k` raw writes, and has issued neither "exit
sleep mode" nor "display on". -/
theorem enable_aborts_on_refused_write (hw : Hw) (ctx : pnc357db1) (w : World) (k : Nat)
    (hk1 : 1 ≤ k) (hk : k ≤ ctx.desc.num_init_cmds)
    (hnum : ctx.desc.num_init_cmds ≤ ctx.desc.init_cmds.length)
    (hacc : ∀ j, j < k - 1 → 0 ≤ write_answer hw ctx w j)
    (hfail : write_answer hw ctx w (k - 1) < 0) :
    ∃ added : List HwOp,
      pnc357db1_enable hw ctx w =
        some (write_answer hw ctx w (k - 1), ⟨w.trace ++ added, w.log⟩) ∧
      added = HwOp.msleep 10 :: table_writes (ctx.desc.init_cmds.take k) ∧
      added.filter HwOp.is_raw_write = table_writes (ctx.desc.init_cmds.take k) ∧
      (added.filter HwOp.is_raw_write).length = k ∧
      HwOp.mipi_dsi_dcs_exit_sleep_mode ∉ added ∧
      HwOp.mipi_dsi_dcs_set_display_on ∉ added := by
  refine ⟨_, ?_, rfl, ?_, ?_, ?_, ?_⟩
  · have hloop := enable_loop_returned hw ctx w w.log (k - 1) ctx.desc.num_init_cmds 0
      (by omega) (by omega) (by omega) (fun j _ h => hacc j h) hfail
    have h0 : history_at_write ctx w 0 = w.trace ++ [HwOp.msleep 10] := by
      simp [history_at_write, table_writes]
    have hk' : k - 1 + 1 = k := by omega
    rw [h0, hk'] at hloop
    simp only [pnc357db1_enable, msleep, World.emit, hloop]
    rfl
  · simp [List.filter_cons, HwOp.is_raw_write, table_writes_filter_raw]
  · have hlen : (table_writes (ctx.desc.init_cmds.take k)).length = k := by
      rw [table_writes_length, List.length_take]
      omega
    simpa [List.filter_cons, HwOp.is_raw_write, table_writes_filter_raw] using hlen
  · simp only [List.mem_cons, not_or]
    exact ⟨by simp, not_mem_table_writes _ _ rfl⟩
  · simp only [List.mem_cons, not_or]
    exact ⟨by simp, not_mem_table_writes _ _ rfl⟩

set_option maxRecDepth 100000 in
/-- Witness for C1 with `k = 10`: on the real table, with a transport that
refuses the tenth write with -5, enable returns -5 after the 10 ms wait and the
raw writes of records 0 to 9, and nothing else. -/
theorem enable_aborts_on_refused_write_witness :
    (∀ j, j < 10 - 1 → 0 ≤ write_answer hw_tenth_write_fails the_panel World.fresh j) ∧
    write_answer hw_tenth_write_fails the_panel World.fresh (10 - 1) = -5 ∧
    pnc357db1_enable hw_tenth_write_fails the_panel World.fresh =
      some (-5, ⟨[.msleep 10,
        .mipi_dsi_dcs_write_buffer [0x0a, 0x31], .mipi_dsi_dcs_write_buffer [0x58, 0x11],
        .mipi_dsi_dcs_write_buffer [0x00, 0x00], .mipi_dsi_dcs_write_buffer [0x89, 0x30],
        .mipi_dsi_dcs_write_buffer [0x80, 0x0A], .mipi_dsi_dcs_write_buffer [0x00, 0x06],
        .mipi_dsi_dcs_write_buffer [0x40, 0x00], .mipi_dsi_dcs_write_buffer [0x28, 0x06],
        .mipi_dsi_dcs_write_buffer [0x40, 0x06], .mipi_dsi_dcs_write_buffer [0x40, 0x02]], []⟩) := by
  have hacc : ∀ j, j < 10 - 1 → 0 ≤ write_answer hw_tenth_write_fails the_panel World.fresh j := by
    decide
  have hans : write_answer hw_tenth_write_fails the_panel World.fresh (10 - 1) = -5 := by
    decide
  obtain ⟨added, hret, hadded, -⟩ :=
    enable_aborts_on_refused_write hw_tenth_write_fails the_panel World.fresh 10
      (by decide) (by decide) (Nat.le_refl _) hacc (by decide)
  refine ⟨hacc, hans, ?_⟩
  rw [hret, hans, hadded]
  decide

/-- C2: when every table write is accepted, enable returns 0 whatever the
transport answers to "exit sleep mode" and "display on"; the requests of the
call end with "exit sleep mode" followed by "display on", each issued exactly
once, so "display on" is issued also when "exit sleep mode" failed. -/
theorem enable_succeeds_whatever_dcs_answers (hw : Hw) (ctx : pnc357db1) (w : World)
    (hnum : ctx.desc.num_init_cmds ≤ ctx.desc.init_cmds.length)
    (hacc : ∀ j, j < ctx.desc.num_init_cmds → 0 ≤ write_answer hw ctx w j) :
    ∃ (w' : World) (before : List HwOp),
      pnc357db1_enable hw ctx w = some (0, w') ∧
      w' = world_after_replay hw ctx w ∧
      w'.trace = w.trace ++ before ++
        [HwOp.mipi_dsi_dcs_exit_sleep_mode, HwOp.mipi_dsi_dcs_set_display_on] ∧
      HwOp.mipi_dsi_dcs_exit_sleep_mode ∉ before ∧
      HwOp.mipi_dsi_dcs_set_display_on ∉ before := by
  refine ⟨_, HwOp.msleep 10 :: table_writes (ctx.desc.init_cmds.take ctx.desc.num_init_cmds)
    ++ [HwOp.msleep 120], enable_completes hw ctx w hnum hacc, rfl, ?_, ?_, ?_⟩
  · simp [world_after_replay_trace, enable_trace]
  · simp only [List.mem_append, List.mem_cons, not_or]
    exact ⟨⟨by simp, not_mem_table_writes _ _ rfl⟩, by simp⟩
  · simp only [List.mem_append, List.mem_cons, not_or]
    exact ⟨⟨by simp, not_mem_table_writes _ _ rfl⟩, by simp⟩

/-- Witness for C2: on the real table, with a transport that accepts every
write and refuses both DCS commands, enable returns 0 and logs both refusals. -/
theorem enable_succeeds_whatever_dcs_answers_witness :
    ∃ w' : World,
      pnc357db1_enable hw_dcs_on_fails the_panel World.fresh = some (0, w') ∧
      w'.log = [⟨"failed to exit sleep mode ret = %d\n", [-5]⟩,
        ⟨"failed to set display on ret = %d\n", [-110]⟩] := by
  obtain ⟨w', before, hret, hw', -⟩ :=
    enable_succeeds_whatever_dcs_answers hw_dcs_on_fails the_panel World.fresh (Nat.le_refl _)
      (fun j _ => by
        simp only [write_answer, hw_dcs_on_fails, hw_ok]
        exact Int.ofNat_nonneg _)
  refine ⟨w', hret, ?_⟩
  rw [hw']
  simp [world_after_replay, hw_dcs_on_fails, hw_ok, World.fresh]

/-- C3: when no table write fails, the requests of a call of enable are exactly
the 10 ms wait, one raw two-byte write per record for records `0 .. N-1` in
table order, the 120 ms wait, "exit sleep mode" and "display on"; this sequence
is a function of the table alone, so two runs (with any two transports that
accept the writes) issue the same sequence. -/
theorem enable_trace_is_table_replay (hw₁ hw₂ : Hw) (ctx : pnc357db1) (w₁ w₂ : World)
    (hnum : ctx.desc.num_init_cmds ≤ ctx.desc.init_cmds.length)
    (hacc₁ : ∀ j, j < ctx.desc.num_init_cmds → 0 ≤ write_answer hw₁ ctx w₁ j)
    (hacc₂ : ∀ j, j < ctx.desc.num_init_cmds → 0 ≤ write_answer hw₂ ctx w₂ j) :
    ∃ (w₁' w₂' : World) (writes : List HwOp),
      pnc357db1_enable hw₁ ctx w₁ = some (0, w₁') ∧
      pnc357db1_enable hw₂ ctx w₂ = some (0, w₂') ∧
      w₁'.trace = w₁.trace ++ HwOp.msleep 10 :: writes ++
        [HwOp.msleep 120, HwOp.mipi_dsi_dcs_exit_sleep_mode,
          HwOp.mipi_dsi_dcs_set_display_on] ∧
      w₂'.trace = w₂.trace ++ HwOp.msleep 10 :: writes ++
        [HwOp.msleep 120, HwOp.mipi_dsi_dcs_exit_sleep_mode,
          HwOp.mipi_dsi_dcs_set_display_on] ∧
      writes.length = ctx.desc.num_init_cmds ∧
      ∀ j, j < ctx.desc.num_init_cmds →
        ∃ cmd, ctx.desc.init_cmds[j]? = some cmd ∧
          writes[j]? = some (HwOp.mipi_dsi_dcs_write_buffer [cmd.data0, cmd.data1]) := by
  refine ⟨_, _, table_writes (ctx.desc.init_cmds.take ctx.desc.num_init_cmds),
    enable_completes hw₁ ctx w₁ hnum hacc₁, enable_completes hw₂ ctx w₂ hnum hacc₂,
    ?_, ?_, ?_, ?_⟩
  · simp [world_after_replay_trace, enable_trace]
  · simp [world_after_replay_trace, enable_trace]
  · rw [table_writes_length, List.length_take]
    omega
  · intro j hj
    have hlt : j < ctx.desc.init_cmds.length := by omega
    refine ⟨ctx.desc.init_cmds[j], List.getElem?_eq_getElem hlt, ?_⟩
    simp [table_writes, List.getElem?_take, hj, List.getElem?_eq_getElem hlt]

set_option maxRecDepth 100000 in
/-- Witness for C3: two cold boots of the real panel, one with a transport that
never fails and one whose DCS commands fail, issue the same requests. -/
theorem enable_trace_is_table_replay_witness :
    ∃ w₁' w₂' : World,
      pnc357db1_enable hw_ok the_panel World.fresh = some (0, w₁') ∧
      pnc357db1_enable hw_dcs_on_fails the_panel World.fresh = some (0, w₂') ∧
      w₁'.trace = w₂'.trace ∧
      w₁'.trace[1]? = some (HwOp.mipi_dsi_dcs_write_buffer [0x0a, 0x31]) := by
  obtain ⟨w₁', w₂', writes, h₁, h₂, t₁, t₂, -, hrec⟩ :=
    enable_trace_is_table_replay hw_ok hw_dcs_on_fails the_panel World.fresh World.fresh
      (Nat.le_refl _)
      (fun j _ => by
        simp only [write_answer, hw_ok]
        exact Int.ofNat_nonneg _)
      (fun j _ => by
        simp only [write_answer, hw_dcs_on_fails, hw_ok]
        exact Int.ofNat_nonneg _)
  refine ⟨w₁', w₂', h₁, h₂, by rw [t₁, t₂], ?_⟩
  obtain ⟨cmd, hcmd, hw0⟩ := hrec 0 (by decide)
  have hc : cmd = pnc357db1_init_cmd.mk 0x0a 0x31 := by
    have h0 : the_panel.desc.init_cmds[0]? = some (pnc357db1_init_cmd.mk 0x0a 0x31) := rfl
    rw [h0] at hcmd
    exact (Option.some.inj hcmd).symm
  subst hc
  rw [t₁]
  cases writes with
  | nil => simp at hw0
  | cons op rest =>
    simp only [List.getElem?_cons_zero, Option.some.injEq] at hw0
    subst hw0
    simp [World.fresh]

/-! ## prepare -/

/-- C4: if the regulator refuses to be enabled (non-zero answer), prepare returns
that answer unchanged and its only request is the rail enable: no reset-line
write and no wait. -/
theorem prepare_rail_failure (hw : Hw) (w : World) (h : hw.regulator_enable w.trace ≠ 0) :
    pnc357db1_prepare hw w =
      (hw.regulator_enable w.trace, ⟨w.trace ++ [HwOp.regulator_enable], w.log⟩) := by
  simp [pnc357db1_prepare, regulator_enable, World.emit, h]

/-- Witness for C4: a regulator answering -19. -/
theorem prepare_rail_failure_witness :
    hw_rail_fails.regulator_enable World.fresh.trace ≠ 0 ∧
    pnc357db1_prepare hw_rail_fails World.fresh = (-19, ⟨[HwOp.regulator_enable], []⟩) :=
  ⟨by decide, prepare_rail_failure hw_rail_fails World.fresh (by decide)⟩

/-- C5: if the regulator is enabled (answer 0), prepare returns 0 and its
requests are exactly: enable rail, reset line 0, wait 120 ms, reset line 1,
wait 120 ms; no wait is shorter than 120 ms. -/
theorem prepare_success (hw : Hw) (w : World) (h : hw.regulator_enable w.trace = 0) :
    ∃ added : List HwOp,
      pnc357db1_prepare hw w = (0, ⟨w.trace ++ added, w.log⟩) ∧
      added = [HwOp.regulator_enable, HwOp.gpiod_set_value 0, HwOp.msleep 120,
        HwOp.gpiod_set_value 1, HwOp.msleep 120] ∧
      ∀ msecs, HwOp.msleep msecs ∈ added → 120 ≤ msecs := by
  refine ⟨_, ?_, rfl, ?_⟩
  · simp [pnc357db1_prepare, regulator_enable, gpiod_set_value, msleep, World.emit, h]
  · intro msecs hmem
    simp at hmem
    omega

/-- Witness for C5: a regulator answering 0. -/
theorem prepare_success_witness :
    hw_ok.regulator_enable World.fresh.trace = 0 ∧
    pnc357db1_prepare hw_ok World.fresh =
      (0, ⟨[HwOp.regulator_enable, HwOp.gpiod_set_value 0, HwOp.msleep 120,
        HwOp.gpiod_set_value 1, HwOp.msleep 120], []⟩) := by
  obtain ⟨added, hret, hadded, -⟩ := prepare_success hw_ok World.fresh (by decide)
  subst hadded
  exact ⟨by decide, hret⟩

/-- C7, as stated, fails: a second prepare with no unprepare in between is not
refused.  With collaborators that never fail it returns 0 and repeats the five
hardware requests. -/
theorem prepare_twice_counterexample :
    world_prepared.trace =
      [HwOp.regulator_enable, HwOp.gpiod_set_value 0, HwOp.msleep 120,
        HwOp.gpiod_set_value 1, HwOp.msleep 120] ∧
    (pnc357db1_prepare hw_ok world_prepared).1 = 0 ∧
    (pnc357db1_prepare hw_ok world_prepared).2.trace =
      world_prepared.trace ++
        [HwOp.regulator_enable, HwOp.gpiod_set_value 0, HwOp.msleep 120,
          HwOp.gpiod_set_value 1, HwOp.msleep 120] ∧
    (pnc357db1_prepare hw_ok world_prepared).2.trace ≠ world_prepared.trace := by
  decide

/-- C7, amended: prepare has no lifecycle guard.  Whatever was requested before,
it requests the rail enable and returns the answer of the regulator; when that
answer is 0 it goes on with the reset pulse, otherwise it does nothing more. -/
theorem prepare_has_no_state_guard (hw : Hw) (w : World) :
    (pnc357db1_prepare hw w).1 = hw.regulator_enable w.trace ∧
    (pnc357db1_prepare hw w).2.trace =
      w.trace ++ HwOp.regulator_enable ::
        (if hw.regulator_enable w.trace = 0 then
          [HwOp.gpiod_set_value 0, HwOp.msleep 120, HwOp.gpiod_set_value 1, HwOp.msleep 120]
        else []) ∧
    (pnc357db1_prepare hw w).2.log = w.log := by
  by_cases h : hw.regulator_enable w.trace = 0
  · simp [pnc357db1_prepare, regulator_enable, gpiod_set_value, msleep, World.emit, h]
  · simp [pnc357db1_prepare, regulator_enable, World.emit, h]

/-! ## unprepare -/

/-- C6, as stated, fails: after a successful prepare, whose first reset-line
write is 0, unprepare writes 1 to the reset line and never 0. -/
theorem unprepare_reset_value_counterexample :
    world_prepared.trace[1]? = some (HwOp.gpiod_set_value 0) ∧
    (pnc357db1_unprepare hw_ok world_prepared).2.trace =
      world_prepared.trace ++
        [HwOp.gpiod_set_value 1, HwOp.msleep 120, HwOp.regulator_disable] ∧
    (pnc357db1_unprepare hw_ok world_prepared).2.trace ≠
      world_prepared.trace ++
        [HwOp.gpiod_set_value 0, HwOp.msleep 120, HwOp.regulator_disable] := by
  decide

/-- C6, amended: unprepare writes 1 to the reset line, waits 120 ms and only then
requests the rail disable; these three requests, in this order, are all it
does, and it returns 0. -/
theorem unprepare_trace (hw : Hw) (w : World) :
    pnc357db1_unprepare hw w =
      (0, ⟨w.trace ++ [HwOp.gpiod_set_value 1, HwOp.msleep 120, HwOp.regulator_disable],
        w.log⟩) := by
  simp [pnc357db1_unprepare, regulator_disable, gpiod_set_value, msleep, World.emit]

/-- C8: whatever was requested before and whatever the regulator answers to the
disable request, unprepare returns 0 and its requests contain exactly one rail
disable, which comes last; a second unprepare returns 0 again and issues the
same requests once more. -/
theorem unprepare_always_powers_down (hw : Hw) (w : World) :
    ∃ ops : List HwOp,
      pnc357db1_unprepare hw w = (0, ⟨w.trace ++ ops, w.log⟩) ∧
      ops.getLast? = some HwOp.regulator_disable ∧
      ops.count HwOp.regulator_disable = 1 ∧
      pnc357db1_unprepare hw (pnc357db1_unprepare hw w).2 =
        (0, ⟨w.trace ++ ops ++ ops, w.log⟩) := by
  refine ⟨[HwOp.gpiod_set_value 1, HwOp.msleep 120, HwOp.regulator_disable], ?_, rfl, ?_, ?_⟩
  · simp [pnc357db1_unprepare, regulator_disable, gpiod_set_value, msleep, World.emit]
  · decide
  · simp [pnc357db1_unprepare, regulator_disable, gpiod_set_value, msleep, World.emit]

/-! ## disable -/

/-- C9: disable requests "display off" and then "enter sleep mode", each exactly
once and nothing else (no raw write), and returns 0 whatever the two answers
are; a negative answer only adds a log line. -/
theorem disable_best_effort (hw : Hw) (w : World) :
    pnc357db1_disable hw w =
      (0, ⟨w.trace ++ [HwOp.mipi_dsi_dcs_set_display_off, HwOp.mipi_dsi_dcs_enter_sleep_mode],
        w.log
          ++ (if hw.mipi_dsi_dcs_set_display_off w.trace < 0 then
                [⟨"failed to set display off: %d\n", [hw.mipi_dsi_dcs_set_display_off w.trace]⟩]
              else [])
          ++ (if hw.mipi_dsi_dcs_enter_sleep_mode
                  (w.trace ++ [HwOp.mipi_dsi_dcs_set_display_off]) < 0 then
                [⟨"failed to enter sleep mode: %d\n",
                  [hw.mipi_dsi_dcs_enter_sleep_mode
                    (w.trace ++ [HwOp.mipi_dsi_dcs_set_display_off])]⟩]
              else [])⟩) := by
  simp only [pnc357db1_disable, mipi_dsi_dcs_set_display_off, mipi_dsi_dcs_enter_sleep_mode,
    World.emit, DRM_DEV_ERROR]
  split_ifs <;> simp

/-! ## get_modes -/

/-- C10: when the copy can be allocated, get_modes returns 1, appends exactly one
mode to the connector, equal to the static descriptor in every timing, geometry
and flag field and carrying both the driver and the preferred type bit, and
sets the display-info size to 266 x 166 mm; when it cannot, get_modes returns
-ENOMEM (-12) and hands the connector back unchanged. -/
theorem get_modes_contract (drm_mode_vrefresh : drm_display_mode → Int)
    (connector : drm_connector) (w : World) :
    (∃ mode : drm_display_mode,
      pnc357db1_get_modes true drm_mode_vrefresh the_panel connector w =
        (1, ⟨connector.probed_modes ++ [mode], ⟨266, 166⟩⟩, w) ∧
      mode.clock = pnc357db1_desc.mode.clock ∧
      mode.hdisplay = pnc357db1_desc.mode.hdisplay ∧
      mode.hsync_start = pnc357db1_desc.mode.hsync_start ∧
      mode.hsync_end = pnc357db1_desc.mode.hsync_end ∧
      mode.htotal = pnc357db1_desc.mode.htotal ∧
      mode.vdisplay = pnc357db1_desc.mode.vdisplay ∧
      mode.vsync_start = pnc357db1_desc.mode.vsync_start ∧
      mode.vsync_end = pnc357db1_desc.mode.vsync_end ∧
      mode.vtotal = pnc357db1_desc.mode.vtotal ∧
      mode.flags = pnc357db1_desc.mode.flags ∧
      mode.width_mm = pnc357db1_desc.mode.width_mm ∧
      mode.height_mm = pnc357db1_desc.mode.height_mm ∧
      mode.type = pnc357db1_desc.mode.type ∧
      mode.name = "1600x2560" ∧
      mode.type &&& DRM_MODE_TYPE_DRIVER = DRM_MODE_TYPE_DRIVER ∧
      mode.type &&& DRM_MODE_TYPE_PREFERRED = DRM_MODE_TYPE_PREFERRED) ∧
    (pnc357db1_get_modes false drm_mode_vrefresh the_panel connector w).1 = -12 ∧
    (pnc357db1_get_modes false drm_mode_vrefresh the_panel connector w).2.1 = connector ∧
    (pnc357db1_get_modes false drm_mode_vrefresh the_panel connector w).2.2.trace = w.trace := by
  refine ⟨⟨drm_mode_set_name pnc357db1_desc.mode, ?_, ?_⟩, ?_, ?_, ?_⟩
  · simp [pnc357db1_get_modes, drm_mode_duplicate, drm_mode_probed_add, the_panel]
    constructor <;> rfl
  · decide
  · simp [pnc357db1_get_modes, drm_mode_duplicate, ENOMEM]
  · simp [pnc357db1_get_modes, drm_mode_duplicate]
  · simp [pnc357db1_get_modes, drm_mode_duplicate, DRM_DEV_ERROR]

/-! ## The static configuration -/

/-- C11: the static mode has clock 275000000, hdisplay 1600, htotal 1700,
vdisplay 2560, vtotal 2694 and size 266 x 166 mm; its porches and sync lengths
are 60, 20, 20 horizontally and 112, 4, 18 vertically, each total is the sum of
its four components, and the timing points are in ascending order. -/
theorem mode_totals_are_sums :
    pnc357db1_desc.mode.clock = 275000000 ∧
    pnc357db1_desc.mode.hdisplay = 1600 ∧
    pnc357db1_desc.mode.htotal = 1700 ∧
    pnc357db1_desc.mode.vdisplay = 2560 ∧
    pnc357db1_desc.mode.vtotal = 2694 ∧
    pnc357db1_desc.mode.width_mm = 266 ∧
    pnc357db1_desc.mode.height_mm = 166 ∧
    pnc357db1_desc.mode.hsync_start - pnc357db1_desc.mode.hdisplay = 60 ∧
    pnc357db1_desc.mode.hsync_end - pnc357db1_desc.mode.hsync_start = 20 ∧
    pnc357db1_desc.mode.htotal - pnc357db1_desc.mode.hsync_end = 20 ∧
    pnc357db1_desc.mode.htotal = pnc357db1_desc.mode.hdisplay + 60 + 20 + 20 ∧
    pnc357db1_desc.mode.vsync_start - pnc357db1_desc.mode.vdisplay = 112 ∧
    pnc357db1_desc.mode.vsync_end - pnc357db1_desc.mode.vsync_start = 4 ∧
    pnc357db1_desc.mode.vtotal - pnc357db1_desc.mode.vsync_end = 18 ∧
    pnc357db1_desc.mode.vtotal = pnc357db1_desc.mode.vdisplay + 112 + 4 + 18 ∧
    pnc357db1_desc.mode.hdisplay ≤ pnc357db1_desc.mode.hsync_start ∧
    pnc357db1_desc.mode.hsync_start ≤ pnc357db1_desc.mode.hsync_end ∧
    pnc357db1_desc.mode.hsync_end ≤ pnc357db1_desc.mode.htotal ∧
    pnc357db1_desc.mode.vdisplay ≤ pnc357db1_desc.mode.vsync_start ∧
    pnc357db1_desc.mode.vsync_start ≤ pnc357db1_desc.mode.vsync_end ∧
    pnc357db1_desc.mode.vsync_end ≤ pnc357db1_desc.mode.vtotal := by
  decide

theorem raw_bytes_sent_append (a b : List HwOp) :
    raw_bytes_sent (a ++ b) = raw_bytes_sent a + raw_bytes_sent b := by
  induction a with
  | nil => simp [raw_bytes_sent]
  | cons op rest ih =>
    cases op <;> simp [raw_bytes_sent, ih]
    omega

theorem raw_bytes_sent_table_writes (cmds : List pnc357db1_init_cmd) :
    raw_bytes_sent (table_writes cmds) = 2 * cmds.length := by
  induction cmds with
  | nil => rfl
  | cons c cs ih =>
    simp only [table_writes, List.map_cons] at ih ⊢
    simp [raw_bytes_sent, ih]
    omega

theorem enable_trace_raw_writes (desc : pnc357db1_panel_desc) :
    ((enable_trace desc).filter HwOp.is_raw_write).length =
      (desc.init_cmds.take desc.num_init_cmds).length := by
  simp [enable_trace, List.filter_cons, HwOp.is_raw_write, table_writes_filter_raw,
    table_writes_length]

theorem enable_trace_raw_bytes (desc : pnc357db1_panel_desc) :
    raw_bytes_sent (enable_trace desc) =
      2 * (desc.init_cmds.take desc.num_init_cmds).length := by
  simp [enable_trace, raw_bytes_sent, raw_bytes_sent_append, raw_bytes_sent_table_writes]

set_option maxRecDepth 100000 in
/-- C12, as stated, fails: the table of the supported variant, and with it the
record count of the configuration, is 548 records long, not 450. -/
theorem table_length_counterexample :
    pnc357db1_init_cmds.length = 548 ∧
    pnc357db1_desc.num_init_cmds = 548 ∧
    pnc357db1_desc.num_init_cmds ≠ 450 := by
  decide

set_option maxRecDepth 100000 in
/-- C12, amended: the configuration found under the key "pnc357db1" has 4 lanes,
format RGB888 and a table of 548 records of exactly two bytes each;
`num_init_cmds` equals the length of the table, so an enable whose table writes
are all accepted issues exactly 548 raw writes, 1096 bytes in all. -/
theorem table_has_548_records (hw : Hw) (w : World)
    (hacc : ∀ j, j < the_panel.desc.num_init_cmds → 0 ≤ write_answer hw the_panel w j) :
    of_device_get_match_data "pnc357db1" = some pnc357db1_desc ∧
    pnc357db1_desc.lanes = 4 ∧
    pnc357db1_desc.format = mipi_dsi_pixel_format.MIPI_DSI_FMT_RGB888 ∧
    pnc357db1_desc.init_cmds.length = 548 ∧
    (pnc357db1_desc.init_cmds.all fun cmd =>
      cmd.data.length = pnc357db1_INIT_CMD_LEN ∧ cmd.data0 < 256 ∧ cmd.data1 < 256) = true ∧
    pnc357db1_desc.num_init_cmds = pnc357db1_desc.init_cmds.length ∧
    ∃ (w' : World) (added : List HwOp),
      pnc357db1_enable hw the_panel w = some (0, w') ∧
      w'.trace = w.trace ++ added ∧
      (added.filter HwOp.is_raw_write).length = 548 ∧
      raw_bytes_sent added = 1096 := by
  refine ⟨rfl, rfl, rfl, by decide, by decide, rfl, _, enable_trace the_panel.desc,
    enable_completes hw the_panel w (Nat.le_refl _) hacc, world_after_replay_trace _ _ _, ?_, ?_⟩
  · rw [enable_trace_raw_writes, List.length_take]
    decide
  · rw [enable_trace_raw_bytes, List.length_take]
    decide

/-- Witness for C12: with a transport that never fails, a cold-boot enable of
the real panel returns 0 after 548 raw writes carrying 1096 bytes. -/
theorem table_has_548_records_witness :
    ∃ (w' : World) (added : List HwOp),
      pnc357db1_enable hw_ok the_panel World.fresh = some (0, w') ∧
      w'.trace = World.fresh.trace ++ added ∧
      (added.filter HwOp.is_raw_write).length = 548 ∧
      raw_bytes_sent added = 1096 :=
  (table_has_548_records hw_ok World.fresh (fun j _ => by
    simp only [write_answer, hw_ok]
    exact Int.ofNat_nonneg _)).2.2.2.2.2.2

/-! ## Frame of enable and disable -/

theorem rail_balance_from_append (hw : Hw) (ops more : List HwOp) :
    ∀ seen : List HwOp,
      rail_balance_from hw seen (ops ++ more) =
        rail_balance_from hw seen ops + rail_balance_from hw (seen ++ ops) more := by
  induction ops with
  | nil => intro seen; simp [rail_balance_from]
  | cons op rest ih =>
    intro seen
    have hseen : seen ++ [op] ++ rest = seen ++ op :: rest := by simp
    rw [List.cons_append, rail_balance_from, rail_balance_from, ih (seen ++ [op]), hseen]
    omega

theorem rail_balance_append (hw : Hw) (trace added : List HwOp) :
    rail_balance hw (trace ++ added) = rail_balance hw trace + rail_balance_from hw trace added := by
  simp [rail_balance, rail_balance_from_append]

theorem rail_balance_from_no_power (hw : Hw) (ops : List HwOp) :
    ∀ seen : List HwOp, (ops.all fun op => !op.touches_power) = true →
      rail_balance_from hw seen ops = 0 := by
  induction ops with
  | nil => intro seen _; rfl
  | cons op rest ih =>
    intro seen h
    simp only [List.all_cons, Bool.and_eq_true] at h
    rw [rail_balance_from, ih _ h.2]
    cases op <;> simp_all [rail_delta, HwOp.touches_power]

/-- Whatever the transport answers, the loop ends inside the table and only
adds raw writes to the trace. -/
theorem enable_loop_only_writes (hw : Hw) (desc : pnc357db1_panel_desc) :
    ∀ (n i : Nat) (w : World), i + n ≤ desc.init_cmds.length →
      ∃ added : List HwOp,
        (added.all fun op => !op.touches_power) = true ∧
        (pnc357db1_enable_loop hw desc n i w = .completed ⟨w.trace ++ added, w.log⟩ ∨
          ∃ err, pnc357db1_enable_loop hw desc n i w = .returned err ⟨w.trace ++ added, w.log⟩) := by
  intro n
  induction n with
  | zero =>
    intro i w _
    exact ⟨[], rfl, Or.inl (by simp [pnc357db1_enable_loop])⟩
  | succ n ih =>
    intro i w hlen
    have hi : i < desc.init_cmds.length := by omega
    rw [pnc357db1_enable_loop]
    simp only [List.getElem?_eq_getElem hi, mipi_dsi_dcs_write_buffer, World.emit]
    split_ifs with herr
    · exact ⟨[_], by simp [HwOp.touches_power], Or.inr ⟨_, rfl⟩⟩
    · obtain ⟨added, hall, hres⟩ := ih (i + 1)
        ⟨w.trace ++ [HwOp.mipi_dsi_dcs_write_buffer
          (desc.init_cmds[i].data.take pnc357db1_INIT_CMD_LEN)], w.log⟩ (by omega)
      refine ⟨HwOp.mipi_dsi_dcs_write_buffer
        (desc.init_cmds[i].data.take pnc357db1_INIT_CMD_LEN) :: added, ?_, ?_⟩
      · simpa [HwOp.touches_power] using hall
      · simpa using hres

/-- Whatever the transport answers, enable returns and only adds requests that
touch neither the rail nor the reset line. -/
theorem enable_only_bus_requests (hw : Hw) (ctx : pnc357db1) (w : World)
    (hnum : ctx.desc.num_init_cmds ≤ ctx.desc.init_cmds.length) :
    ∃ (ret : Int) (w' : World) (added : List HwOp),
      pnc357db1_enable hw ctx w = some (ret, w') ∧
      w'.trace = w.trace ++ added ∧
      (added.all fun op => !op.touches_power) = true := by
  obtain ⟨added, hall, hres⟩ := enable_loop_only_writes hw ctx.desc ctx.desc.num_init_cmds 0
    (msleep w 10) (by omega)
  rcases hres with hres | ⟨err, hres⟩
  · simp only [pnc357db1_enable, hres]
    refine ⟨_, _, HwOp.msleep 10 :: added ++ [HwOp.msleep 120,
      HwOp.mipi_dsi_dcs_exit_sleep_mode, HwOp.mipi_dsi_dcs_set_display_on], rfl, ?_, ?_⟩
    · simp only [mipi_dsi_dcs_exit_sleep_mode, mipi_dsi_dcs_set_display_on, msleep, World.emit,
        DRM_DEV_ERROR]
      split_ifs <;> simp
    · simpa [HwOp.touches_power] using hall
  · simp only [pnc357db1_enable, hres]
    refine ⟨_, _, HwOp.msleep 10 :: added, rfl, ?_, ?_⟩
    · simp [msleep, World.emit]
    · simpa [HwOp.touches_power] using hall

/-- C13: for every behaviour of the collaborators, enable returns and the
requests it adds contain no rail enable, no rail disable and no reset-line
write, whether it completes or aborts on a refused write; the same holds for
disable.  Hence neither changes the rail balance, which prepare raises by 1 when
the regulator accepts and leaves alone when it refuses, and which unprepare
lowers by 1. -/
theorem enable_disable_leave_power_alone (hw : Hw) (ctx : pnc357db1) (w : World)
    (hnum : ctx.desc.num_init_cmds ≤ ctx.desc.init_cmds.length) :
    (∃ (ret : Int) (w' : World) (added : List HwOp),
      pnc357db1_enable hw ctx w = some (ret, w') ∧
      w'.trace = w.trace ++ added ∧
      (added.all fun op => !op.touches_power) = true ∧
      rail_balance hw w'.trace = rail_balance hw w.trace) ∧
    (∃ added : List HwOp,
      (pnc357db1_disable hw w).2.trace = w.trace ++ added ∧
      (added.all fun op => !op.touches_power) = true ∧
      rail_balance hw (pnc357db1_disable hw w).2.trace = rail_balance hw w.trace) ∧
    rail_balance hw (pnc357db1_prepare hw w).2.trace =
      rail_balance hw w.trace + (if hw.regulator_enable w.trace = 0 then 1 else 0) ∧
    rail_balance hw (pnc357db1_unprepare hw w).2.trace = rail_balance hw w.trace - 1 := by
  refine ⟨?_, ?_, ?_, ?_⟩
  · obtain ⟨ret, w', added, hret, htrace, hall⟩ := enable_only_bus_requests hw ctx w hnum
    refine ⟨ret, w', added, hret, htrace, hall, ?_⟩
    rw [htrace, rail_balance_append, rail_balance_from_no_power hw added w.trace hall]
    omega
  · have htrace : (pnc357db1_disable hw w).2.trace =
        w.trace ++ [HwOp.mipi_dsi_dcs_set_display_off, HwOp.mipi_dsi_dcs_enter_sleep_mode] := by
      simp only [pnc357db1_disable, mipi_dsi_dcs_set_display_off, mipi_dsi_dcs_enter_sleep_mode,
        World.emit, DRM_DEV_ERROR]
      split_ifs <;> simp
    refine ⟨_, htrace, rfl, ?_⟩
    rw [htrace, rail_balance_append, rail_balance_from_no_power hw
      [HwOp.mipi_dsi_dcs_set_display_off, HwOp.mipi_dsi_dcs_enter_sleep_mode] w.trace rfl]
    omega
  · by_cases h : hw.regulator_enable w.trace = 0
    · have htrace : (pnc357db1_prepare hw w).2.trace =
          w.trace ++ [HwOp.regulator_enable, HwOp.gpiod_set_value 0, HwOp.msleep 120,
            HwOp.gpiod_set_value 1, HwOp.msleep 120] := by
        simp [pnc357db1_prepare, regulator_enable, gpiod_set_value, msleep, World.emit, h]
      rw [htrace, rail_balance_append]
      simp [rail_balance_from, rail_delta, h]
    · have htrace : (pnc357db1_prepare hw w).2.trace = w.trace ++ [HwOp.regulator_enable] := by
        simp [pnc357db1_prepare, regulator_enable, World.emit, h]
      rw [htrace, rail_balance_append]
      simp [rail_balance_from, rail_delta, h]
  · have htrace : (pnc357db1_unprepare hw w).2.trace =
        w.trace ++ [HwOp.gpiod_set_value 1, HwOp.msleep 120, HwOp.regulator_disable] := by
      simp [pnc357db1_unprepare, regulator_disable, gpiod_set_value, msleep, World.emit]
    rw [htrace, rail_balance_append]
    simp [rail_balance_from, rail_delta]
    omega

set_option maxRecDepth 100000 in
/-- Witness for C13: after a successful prepare the rail balance is 1; an enable
of the real panel that aborts on the refused tenth write adds no request to the
rail or the reset line and leaves the balance at 1. -/
theorem enable_disable_leave_power_alone_witness :
    rail_balance hw_tenth_write_fails world_prepared.trace = 1 ∧
    ∃ (ret : Int) (w' : World) (added : List HwOp),
      pnc357db1_enable hw_tenth_write_fails the_panel world_prepared = some (ret, w') ∧
      w'.trace = world_prepared.trace ++ added ∧
      (added.all fun op => !op.touches_power) = true ∧
      rail_balance hw_tenth_write_fails w'.trace = 1 := by
  have hbal : rail_balance hw_tenth_write_fails world_prepared.trace = 1 := by decide
  obtain ⟨ret, w', added, hret, htrace, hall, hsame⟩ :=
    (enable_disable_leave_power_alone hw_tenth_write_fails the_panel world_prepared
      (Nat.le_refl _)).1
  exact ⟨hbal, ret, w', added, hret, htrace, hall, hsame.trans hbal⟩

end Pnc357db1
